import Mathlib

/-!
Shallow embedding of the resilient email-classification pipeline of the
`email-classify` repository: the response interpreter
(`app/services/classifier.py`, `extract_classification_data`), the OpenAI
completion client with its retry policy (`app/services/openai_client.py`),
the classification HTTP endpoint with its TTL result cache
(`app/api/routes.py`), and the NLP text normalizer
(`app/nlp/preprocess.py`).  Python machine floats are modelled as exact
rationals; all concrete values appearing in the development are exactly
representable, so clamping and comparison behaviour is unaffected.
-/

namespace EmailClassify

/-! ### Python string primitives (the ASCII fragment the repository exercises) -/

/-- Python whitespace (`str.strip`, `str.split`, regex `\s`): the six ASCII
whitespace characters. -/
def pyIsSpace (c : Char) : Bool :=
  c = ' ' || c = '\t' || c = '\n' || c = '\r' || c = Char.ofNat 11 || c = Char.ofNat 12

def nonWs (c : Char) : Bool := !(pyIsSpace c)

/-- Model of Python `str.strip()` on a character list. -/
def stripChars (l : List Char) : List Char :=
  ((l.dropWhile pyIsSpace).reverse.dropWhile pyIsSpace).reverse

/-- Model of Python `str.strip()`. -/
def pyStrip (s : String) : String := String.mk (stripChars s.data)

/-- ASCII lowercasing, the fragment of Python `str.lower` relevant here. -/
def pyLowerChar (c : Char) : Char :=
  if 'A' ≤ c ∧ c ≤ 'Z' then Char.ofNat (c.toNat + 32) else c

def lowerChars (l : List Char) : List Char := l.map pyLowerChar

/-- Model of Python `str.lower()`. -/
def pyLower (s : String) : String := String.mk (lowerChars s.data)

/-- Model of the Python substring test `needle in hay` (first argument is the
needle, second the haystack). -/
def containsChars (needle : List Char) : List Char → Bool
  | [] => needle.isEmpty
  | c :: t => needle.isPrefixOf (c :: t) || containsChars needle t

/-- Model of Python `needle in hay` on strings. -/
def pyContains (hay needle : String) : Bool := containsChars needle.data hay.data

/-! ### JSON values and a model of `json.loads` -/

/-- JSON documents, as produced by Python `json.loads`; numbers are modelled
as exact rationals. -/
inductive JsonValue where
  | null
  | bool (b : Bool)
  | num (q : Rat)
  | str (s : String)
  | arr (elems : List JsonValue)
  | obj (fields : List (String × JsonValue))

def jsonWsChar (c : Char) : Bool := c = ' ' || c = '\t' || c = '\n' || c = '\r'

def dropJsonWs (l : List Char) : List Char := l.dropWhile jsonWsChar

def digitVal (c : Char) : Nat := c.toNat - '0'.toNat

def digitsToNat (l : List Char) : Nat := l.foldl (fun acc c => 10 * acc + digitVal c) 0

def hexVal (c : Char) : Option Nat :=
  if '0' ≤ c ∧ c ≤ '9' then some (c.toNat - '0'.toNat)
  else if 'a' ≤ c ∧ c ≤ 'f' then some (c.toNat - 'a'.toNat + 10)
  else if 'A' ≤ c ∧ c ≤ 'F' then some (c.toNat - 'A'.toNat + 10)
  else none

/-- Body of a JSON string literal after the opening quote: returns the decoded
characters and the remaining input after the closing quote. -/
def parseStringBody : List Char → Option (List Char × List Char)
  | [] => none
  | c :: rest =>
    if c = '\"' then some ([], rest)
    else if c = '\\' then
      match rest with
      | [] => none
      | e :: rest2 =>
        if e = '\"' ∨ e = '\\' ∨ e = '/' then
          (parseStringBody rest2).map (fun p => (e :: p.1, p.2))
        else if e = 'b' then (parseStringBody rest2).map (fun p => (Char.ofNat 8 :: p.1, p.2))
        else if e = 'f' then (parseStringBody rest2).map (fun p => (Char.ofNat 12 :: p.1, p.2))
        else if e = 'n' then (parseStringBody rest2).map (fun p => ('\n' :: p.1, p.2))
        else if e = 'r' then (parseStringBody rest2).map (fun p => ('\r' :: p.1, p.2))
        else if e = 't' then (parseStringBody rest2).map (fun p => ('\t' :: p.1, p.2))
        else if e = 'u' then
          match rest2 with
          | h1 :: h2 :: h3 :: h4 :: rest3 =>
            match hexVal h1, hexVal h2, hexVal h3, hexVal h4 with
            | some a, some b, some c2, some d =>
              (parseStringBody rest3).map
                (fun p => (Char.ofNat (((a * 16 + b) * 16 + c2) * 16 + d) :: p.1, p.2))
            | _, _, _, _ => none
          | _ => none
        else none
    else if c.toNat < 32 then none
    else (parseStringBody rest).map (fun p => (c :: p.1, p.2))

/-- Optional exponent part of a JSON number: sign and decimal value of the
exponent together with the remaining input. -/
def parseExpPart (l : List Char) : Option (Bool × Nat × List Char) :=
  match l with
  | c :: t =>
    if c = 'e' ∨ c = 'E' then
      let p :=
        match t with
        | s :: t2 => if s = '-' then (true, t2) else if s = '+' then (false, t2) else (false, t)
        | [] => (false, ([] : List Char))
      let ds := p.2.takeWhile Char.isDigit
      if ds.isEmpty then none
      else some (p.1, digitsToNat ds, p.2.dropWhile Char.isDigit)
    else some (false, 0, l)
  | [] => some (false, 0, [])

/-- Optional fraction part of a JSON number: the fraction digits and the
remaining input; a point not followed by a digit is rejected. -/
def parseFracPart (l : List Char) : Option (List Char × List Char) :=
  match l with
  | c :: t =>
    if c = '.' then
      let ds := t.takeWhile Char.isDigit
      if ds.isEmpty then none else some (ds, t.dropWhile Char.isDigit)
    else some ([], l)
  | [] => some ([], [])

/-- Exact rational value of a JSON number given its sign, integer part,
fraction digits and signed exponent. -/
def ratOfDigits (neg : Bool) (ip : Nat) (frac : List Char) (eneg : Bool) (e : Nat) : Rat :=
  let mant : Int := (if neg then -1 else 1) * ((ip * 10 ^ frac.length + digitsToNat frac : Nat) : Int)
  let exp10 : Int := (if eneg then -(e : Int) else (e : Int)) - (frac.length : Int)
  if 0 ≤ exp10 then mkRat (mant * (10 : Int) ^ exp10.toNat) 1
  else mkRat mant ((10 : Nat) ^ (-exp10).toNat)

/-- JSON number grammar: optional minus, integer part without leading zeros,
optional fraction, optional exponent. -/
def parseNumber (l : List Char) : Option (Rat × List Char) :=
  let p :=
    match l with
    | c :: t => if c = '-' then (true, t) else (false, l)
    | [] => (false, ([] : List Char))
  match p.2 with
  | [] => none
  | d :: t1 =>
    if d = '0' then
      match parseFracPart t1 with
      | none => none
      | some (frac, l2) =>
        match parseExpPart l2 with
        | none => none
        | some (eneg, e, l3) => some (ratOfDigits p.1 0 frac eneg e, l3)
    else if d.isDigit then
      match parseFracPart (p.2.dropWhile Char.isDigit) with
      | none => none
      | some (frac, l2) =>
        match parseExpPart l2 with
        | none => none
        | some (eneg, e, l3) =>
          some (ratOfDigits p.1 (digitsToNat (p.2.takeWhile Char.isDigit)) frac eneg e, l3)
    else none

def lbraceC : Char := Char.ofNat 123

def rbraceC : Char := Char.ofNat 125

mutual

/-- Parse one JSON value, returning it with the unconsumed input. -/
def parseValue : Nat → List Char → Option (JsonValue × List Char)
  | 0, _ => none
  | fuel + 1, l0 =>
    match dropJsonWs l0 with
    | [] => none
    | c :: rest =>
      if c = '\"' then
        match parseStringBody rest with
        | some (cs, r) => some (.str (String.mk cs), r)
        | none => none
      else if c = lbraceC then
        match dropJsonWs rest with
        | d :: rest2 =>
          if d = rbraceC then some (.obj [], rest2)
          else
            match parseMembers fuel (d :: rest2) [] with
            | some (fs, r) => some (.obj fs, r)
            | none => none
        | [] => none
      else if c = '[' then
        match dropJsonWs rest with
        | d :: rest2 =>
          if d = ']' then some (.arr [], rest2)
          else
            match parseElements fuel (d :: rest2) [] with
            | some (es, r) => some (.arr es, r)
            | none => none
        | [] => none
      else if "null".data.isPrefixOf (c :: rest) then some (.null, (c :: rest).drop 4)
      else if "true".data.isPrefixOf (c :: rest) then some (.bool true, (c :: rest).drop 4)
      else if "false".data.isPrefixOf (c :: rest) then some (.bool false, (c :: rest).drop 5)
      else
        match parseNumber (c :: rest) with
        | some (q, r) => some (.num q, r)
        | none => none

/-- Parse the members of a JSON object after the opening brace. -/
def parseMembers : Nat → List Char → List (String × JsonValue) →
    Option (List (String × JsonValue) × List Char)
  | 0, _, _ => none
  | fuel + 1, l, acc =>
    match dropJsonWs l with
    | [] => none
    | c :: rest =>
      if c = '\"' then
        match parseStringBody rest with
        | some (key, r1) =>
          match dropJsonWs r1 with
          | d :: r2 =>
            if d = ':' then
              match parseValue fuel r2 with
              | some (v, r3) =>
                match dropJsonWs r3 with
                | e :: r4 =>
                  if e = ',' then parseMembers fuel r4 (acc ++ [(String.mk key, v)])
                  else if e = rbraceC then some (acc ++ [(String.mk key, v)], r4)
                  else none
                | [] => none
              | none => none
            else none
          | [] => none
        | none => none
      else none

/-- Parse the elements of a JSON array after the opening bracket. -/
def parseElements : Nat → List Char → List JsonValue →
    Option (List JsonValue × List Char)
  | 0, _, _ => none
  | fuel + 1, l, acc =>
    match parseValue fuel l with
    | some (v, r1) =>
      match dropJsonWs r1 with
      | e :: r2 =>
        if e = ',' then parseElements fuel r2 (acc ++ [v])
        else if e = ']' then some (acc ++ [v], r2)
        else none
      | [] => none
    | none => none

end

/-- Model of Python `json.loads` on the JSON fragment the program can
encounter: whitespace is skipped around a single document and trailing
garbage is rejected; `none` models `json.JSONDecodeError`. -/
def jsonLoads (s : String) : Option JsonValue :=
  match parseValue (2 * s.length + 8) s.data with
  | some (v, rest) => if (dropJsonWs rest).isEmpty then some v else none
  | none => none

/-! ### The response interpreter: `extract_classification_data`
(`app/services/classifier.py`, lines 37-100) -/

def btickC : Char := Char.ofNat 96

/-- Model of `re.sub(r'```json?\s*', '', cleaned)`: every occurrence of three
backticks followed by `jso`, an optional `n` and a greedy whitespace run is
removed, scanning left to right without overlap. -/
def fenceSub1 : Nat → List Char → List Char
  | 0, l => l
  | _, [] => []
  | fuel + 1, c :: t =>
    match c :: t with
    | a :: b :: c3 :: 'j' :: 's' :: 'o' :: rest =>
      if a = btickC ∧ b = btickC ∧ c3 = btickC then
        let rest2 := match rest with
          | 'n' :: r => r
          | r => r
        fenceSub1 fuel (rest2.dropWhile pyIsSpace)
      else c :: fenceSub1 fuel t
    | _ => c :: fenceSub1 fuel t

/-- Model of `re.sub(r'```\s*$', '', cleaned)`: the leftmost three backticks
followed only by whitespace up to the end of the string are removed together
with that whitespace. -/
def fenceSub2 : List Char → List Char
  | a :: b :: c :: rest =>
    if a = btickC ∧ b = btickC ∧ c = btickC ∧ rest.all pyIsSpace then []
    else a :: fenceSub2 (b :: c :: rest)
  | l => l

/-- Lines 52-56 of `classifier.py`: strip the response and, when it starts
with a code fence, remove markdown fence markers. -/
def cleanResponse (s : String) : String :=
  let cl := pyStrip s
  if [btickC, btickC, btickC].isPrefixOf cl.data then
    String.mk (fenceSub2 (fenceSub1 (cl.data.length + 1) cl.data))
  else cl

/-- Python exceptions that the interpreter can raise; `valueError` includes
`json.JSONDecodeError`.  The `except` clause of the source catches exactly
`JSONDecodeError`, `ValueError` and `KeyError`. -/
inductive PyErr where
  | typeError
  | valueError
  | attributeError
deriving DecidableEq, Repr

/-- Python `dict.get(key, default)`; later duplicate keys shadow earlier ones,
as in a Python dict built by `json.loads`. -/
def objGet : List (String × JsonValue) → String → JsonValue → JsonValue
  | [], _, d => d
  | (k', v) :: rest, k, d => objGet rest k (if k' = k then v else d)

/-- Python `int(str)` body: optional sign followed by digits only. -/
def pyIntOfChars (l : List Char) : Option Int :=
  let p :=
    match l with
    | c :: t => if c = '-' then ((-1 : Int), t) else if c = '+' then (1, t) else (1, l)
    | [] => (1, ([] : List Char))
  if p.2 ≠ [] ∧ p.2.all Char.isDigit then some (p.1 * digitsToNat p.2) else none

/-- Python `float(str)` body: optional sign, digits with an optional decimal
point (at least one digit overall). -/
def pyFloatOfChars (l : List Char) : Option Rat :=
  let p :=
    match l with
    | c :: t => if c = '-' then (true, t) else if c = '+' then (false, t) else (false, l)
    | [] => (false, ([] : List Char))
  let ds := p.2.takeWhile Char.isDigit
  match p.2.dropWhile Char.isDigit with
  | [] =>
    if ds ≠ [] then
      some (mkRat ((if p.1 then -1 else 1) * (digitsToNat ds : Int)) 1)
    else none
  | c :: t =>
    if c = '.' ∧ t.all Char.isDigit ∧ (ds ≠ [] ∨ t ≠ []) then
      some (mkRat ((if p.1 then -1 else 1) *
                     ((digitsToNat ds * 10 ^ t.length + digitsToNat t : Nat) : Int))
                  ((10 : Nat) ^ t.length))
    else none

/-- Python `float(x)` on a JSON value: numbers and booleans convert, numeric
strings parse (`ValueError` otherwise), anything else is a `TypeError`. -/
def pyFloat : JsonValue → Except PyErr Rat
  | .num q => .ok q
  | .bool b => .ok (if b then 1 else 0)
  | .str s =>
    match pyFloatOfChars (stripChars s.data) with
    | some q => .ok q
    | none => .error .valueError
  | _ => .error .typeError

/-- Python `int(x)` on a JSON value: floats truncate toward zero, booleans
convert, integer-literal strings parse (`ValueError` otherwise), anything
else is a `TypeError`. -/
def pyInt : JsonValue → Except PyErr Int
  | .num q => .ok (q.num / (q.den : Int))
  | .bool b => .ok (if b then 1 else 0)
  | .str s =>
    match pyIntOfChars (stripChars s.data) with
    | some n => .ok n
    | none => .error .valueError
  | _ => .error .typeError

/-- Value of Python `min(a, b)` on rationals. -/
def pyMinR (a b : Rat) : Rat := if Rat.blt b a then b else a

/-- Value of Python `max(a, b)` on rationals. -/
def pyMaxR (a b : Rat) : Rat := if Rat.blt a b then b else a

/-- Value of Python `min(a, b)` on integers. -/
def pyMinI (a b : Int) : Int := if b < a then b else a

/-- Value of Python `max(a, b)` on integers. -/
def pyMaxI (a b : Int) : Int := if a < b then b else a

/-- Lines 64-71 of `classifier.py`: category normalization by case-insensitive
substring tests. -/
def normalizeClassification (c : String) : String :=
  if pyContains (pyLower c) "produtivo" then
    if pyContains (pyLower c) "improdutivo" then "Improdutivo" else "Produtivo"
  else "Improdutivo"

/-- Result record of `extract_classification_data`. -/
structure ClassificationData where
  classification : String
  confidence : Rat
  pontuation : Int
deriving DecidableEq, Repr

/-- Lines 87-100 of `classifier.py`: the lexical fallback applied to the raw
response when the structured parse fails. -/
def fallbackExtract (response : String) : ClassificationData :=
  if pyContains (pyLower response) "produtivo" = true ∧
      ¬ (pyContains (pyLower response) "improdutivo" = true) then
    { classification := "Produtivo", confidence := mkRat 1 2, pontuation := 7 }
  else
    { classification := "Improdutivo", confidence := mkRat 1 2, pontuation := 3 }

/-- Lines 58-81 of `classifier.py`: the structured branch applied to a parsed
JSON document, with Python's evaluation order of the fallible coercions
(`float` on confidence, then `int` on pontuation, then `.lower()` on the
classification field). -/
def extractFromJson (data : JsonValue) : Except PyErr ClassificationData :=
  match data with
  | .obj fields => do
    let cval := objGet fields "classification" (.str "Improdutivo")
    let conf ← pyFloat (objGet fields "confidence" (.num (mkRat 1 2)))
    let pont ← pyInt (objGet fields "pontuation" (.num 5))
    let cstr ← (match cval with
      | .str s => Except.ok s
      | _ => Except.error PyErr.attributeError)
    Except.ok { classification := normalizeClassification cstr,
                confidence := pyMaxR 0 (pyMinR 1 conf),
                pontuation := pyMaxI 0 (pyMinI 10 pont) }
  | _ => .error .attributeError

/-- Model of `extract_classification_data` (lines 37-100): clean the response,
attempt `json.loads`, interpret the parsed document, and fall back to the
lexical heuristic when the exception raised is one the `except` clause
catches (`JSONDecodeError`/`ValueError`/`KeyError`).  `TypeError` and
`AttributeError` escape, exactly as in the source. -/
def extract_classification_data (response : String) : Except PyErr ClassificationData :=
  match jsonLoads (cleanResponse response) with
  | none => .ok (fallbackExtract response)
  | some data =>
    match extractFromJson data with
    | .ok r => .ok r
    | .error e => if e = .valueError then .ok (fallbackExtract response) else .error e

deriving instance DecidableEq for Except

/-! ### Helper lemmas about substring search and the interpreter -/

lemma containsChars_of_isPrefixOf (n l : List Char) (h : List.isPrefixOf n l = true) :
    containsChars n l = true := by
  cases l with
  | nil =>
    cases n with
    | nil => rfl
    | cons a as => simp [List.isPrefixOf] at h
  | cons c t => simp [containsChars, h]

lemma containsChars_cons (n : List Char) (c : Char) (t : List Char)
    (h : containsChars n t = true) : containsChars n (c :: t) = true := by
  simp [containsChars, h]

lemma improdutivo_chars : "improdutivo".data = 'i' :: 'm' :: "produtivo".data := rfl

/-- A character list containing the negative term also contains the positive
term, since `produtivo` is a substring of `improdutivo`. -/
lemma containsChars_produtivo_of_improdutivo (l : List Char)
    (h : containsChars "improdutivo".data l = true) :
    containsChars "produtivo".data l = true := by
  induction l with
  | nil => simp [containsChars] at h
  | cons c t ih =>
    rw [containsChars, Bool.or_eq_true] at h
    rcases h with h | h
    · rw [improdutivo_chars] at h
      cases t with
      | nil => simp [List.isPrefixOf] at h
      | cons d t2 =>
        simp only [List.isPrefixOf, Bool.and_eq_true] at h
        exact containsChars_cons _ _ _
          (containsChars_cons _ _ _ (containsChars_of_isPrefixOf _ _ h.2.2))
    · exact containsChars_cons _ _ _ (ih h)

lemma pyContains_produtivo_of_improdutivo (s : String)
    (h : pyContains s "improdutivo" = true) : pyContains s "produtivo" = true :=
  containsChars_produtivo_of_improdutivo s.data h

/-- The strict-order Boolean on rationals agrees with the order relation. -/
lemma rat_blt_iff (a b : Rat) : Rat.blt a b = true ↔ a < b := Iff.rfl

lemma pyMaxR_nonneg (x : Rat) : 0 ≤ pyMaxR 0 x := by
  unfold pyMaxR
  split
  · next h => exact le_of_lt ((rat_blt_iff _ _).1 h)
  · exact le_refl 0

lemma pyMaxR_clamp_le_one (x : Rat) : pyMaxR 0 (pyMinR 1 x) ≤ 1 := by
  unfold pyMaxR pyMinR
  by_cases hx : Rat.blt x 1 = true
  · rw [if_pos hx]
    split
    · exact le_of_lt ((rat_blt_iff _ _).1 hx)
    · norm_num
  · rw [if_neg hx]
    split
    · exact le_refl 1
    · norm_num

lemma pyMaxI_nonneg (n : Int) : 0 ≤ pyMaxI 0 n := by
  unfold pyMaxI
  split <;> omega

lemma pyMaxI_clamp_le_ten (n : Int) : pyMaxI 0 (pyMinI 10 n) ≤ 10 := by
  unfold pyMaxI pyMinI
  split <;> split <;> omega

/-- The normalized category is always one of the two canonical labels. -/
lemma normalizeClassification_cases (c : String) :
    normalizeClassification c = "Produtivo" ∨ normalizeClassification c = "Improdutivo" := by
  unfold normalizeClassification
  split
  · split
    · right; rfl
    · left; rfl
  · right; rfl

/-- The fallback result always carries a canonical label. -/
lemma fallbackExtract_label (s : String) :
    (fallbackExtract s).classification = "Produtivo" ∨
      (fallbackExtract s).classification = "Improdutivo" := by
  unfold fallbackExtract
  split
  · left; rfl
  · right; rfl

/-- The fallback result always carries in-range score and confidence. -/
lemma fallbackExtract_ranges (s : String) :
    (0 : Int) ≤ (fallbackExtract s).pontuation ∧ (fallbackExtract s).pontuation ≤ 10 ∧
      (0 : Rat) ≤ (fallbackExtract s).confidence ∧ (fallbackExtract s).confidence ≤ 1 := by
  unfold fallbackExtract
  split <;> exact ⟨by decide, by decide, by decide, by decide⟩

/-- Every successful structured interpretation yields a canonical label and
clamped values. -/
lemma extractFromJson_inv (d : JsonValue) (r : ClassificationData)
    (h : extractFromJson d = .ok r) :
    (r.classification = "Produtivo" ∨ r.classification = "Improdutivo") ∧
      0 ≤ r.pontuation ∧ r.pontuation ≤ 10 ∧ 0 ≤ r.confidence ∧ r.confidence ≤ 1 := by
  cases d with
  | obj fields =>
    simp only [extractFromJson, bind, Except.bind] at h
    cases hf : pyFloat (objGet fields "confidence" (.num (mkRat 1 2))) with
    | error e => rw [hf] at h; simp at h
    | ok conf =>
      rw [hf] at h
      cases hp : pyInt (objGet fields "pontuation" (.num 5)) with
      | error e => rw [hp] at h; simp at h
      | ok pont =>
        rw [hp] at h
        cases hc : objGet fields "classification" (.str "Improdutivo") with
        | str cs =>
          rw [hc] at h
          simp only [Except.ok.injEq] at h
          subst h
          exact ⟨normalizeClassification_cases _,
            pyMaxI_nonneg _, pyMaxI_clamp_le_ten _, pyMaxR_nonneg _, pyMaxR_clamp_le_one _⟩
        | null => rw [hc] at h; simp at h
        | bool b => rw [hc] at h; simp at h
        | num q => rw [hc] at h; simp at h
        | arr es => rw [hc] at h; simp at h
        | obj fs => rw [hc] at h; simp at h
  | null => exact absurd h (by simp [extractFromJson])
  | bool b => exact absurd h (by simp [extractFromJson])
  | num q => exact absurd h (by simp [extractFromJson])
  | str s => exact absurd h (by simp [extractFromJson])
  | arr es => exact absurd h (by simp [extractFromJson])

/-! ### Claims about the response interpreter -/

/-- C1: the spec states that the interpreter never raises, well-formed JSON
with fields of unexpected types included.  The code violates this: on a
well-formed reply whose `confidence` is `null`, `float(None)` raises a
`TypeError`, which the `except (json.JSONDecodeError, ValueError, KeyError)`
clause does not catch, so the exception escapes instead of a value being
returned. -/
theorem extract_raises_typeError_on_null_confidence :
    extract_classification_data
        "\x7b\"classification\": \"Produtivo\", \"confidence\": null, \"pontuation\": 5\x7d" =
      .error .typeError := by
  decide

/-- C2: whenever the interpreter returns a value, the classification is one
of the two canonical labels, the score lies in `[0, 10]` and the confidence
in `[0, 1]`; a well-formed structured reply with score `15` is clamped to
`10`, and confidence `-0.3` is clamped to `0`. -/
theorem extract_result_ranges :
    (∀ (s : String) (r : ClassificationData),
        extract_classification_data s = .ok r →
        (r.classification = "Produtivo" ∨ r.classification = "Improdutivo") ∧
          0 ≤ r.pontuation ∧ r.pontuation ≤ 10 ∧ 0 ≤ r.confidence ∧ r.confidence ≤ 1) ∧
    extract_classification_data
        "\x7b\"classification\": \"Produtivo\", \"confidence\": 0.9, \"pontuation\": 15\x7d" =
      .ok { classification := "Produtivo", confidence := mkRat 9 10, pontuation := 10 } ∧
    extract_classification_data
        "\x7b\"classification\": \"Produtivo\", \"confidence\": -0.3, \"pontuation\": 5\x7d" =
      .ok { classification := "Produtivo", confidence := 0, pontuation := 5 } := by
  refine ⟨?_, by decide, by decide⟩
  intro s r h
  unfold extract_classification_data at h
  cases hj : jsonLoads (cleanResponse s) with
  | none =>
    rw [hj] at h
    simp only [Except.ok.injEq] at h
    subst h
    exact ⟨fallbackExtract_label s, fallbackExtract_ranges s⟩
  | some data =>
    rw [hj] at h
    dsimp only at h
    cases he : extractFromJson data with
    | ok r2 =>
      rw [he] at h
      simp only [Except.ok.injEq] at h
      subst h
      exact extractFromJson_inv data _ he
    | error e =>
      rw [he] at h
      dsimp only at h
      by_cases hv : e = PyErr.valueError
      · rw [if_pos hv, Except.ok.injEq] at h
        subst h
        exact ⟨fallbackExtract_label s, fallbackExtract_ranges s⟩
      · rw [if_neg hv] at h
        exact absurd h (by simp)

/-- C2 witness: the invariant instantiated at a concrete reply whose only
field is an out-of-range confidence. -/
theorem extract_result_ranges_witness :
    extract_classification_data "\x7b\"confidence\": 2\x7d" =
        .ok { classification := "Improdutivo", confidence := 1, pontuation := 5 } ∧
    (("Improdutivo" = "Produtivo" ∨ "Improdutivo" = "Improdutivo") ∧
      (0 : Int) ≤ 5 ∧ (5 : Int) ≤ 10 ∧ (0 : Rat) ≤ 1 ∧ (1 : Rat) ≤ 1) :=
  ⟨by decide,
   extract_result_ranges.1 "\x7b\"confidence\": 2\x7d"
     { classification := "Improdutivo", confidence := 1, pontuation := 5 } (by decide)⟩

/-- C5: the structured branch normalizes the category by case-insensitive
substring tests, with the negative term taking precedence (in particular on
strings where the positive term occurs only inside the negative term), and
defaults to the negative label. -/
theorem normalize_category_trichotomy :
    (∀ c : String,
        normalizeClassification c =
          (if pyContains (pyLower c) "improdutivo" = true then "Improdutivo"
           else if pyContains (pyLower c) "produtivo" = true then "Produtivo"
           else "Improdutivo")) ∧
    normalizeClassification "Improdutivo" = "Improdutivo" ∧
    extract_classification_data "\x7b\"classification\": \"algo Improdutivo\"\x7d" =
      .ok { classification := "Improdutivo", confidence := mkRat 1 2, pontuation := 5 } := by
  refine ⟨?_, by decide, by decide⟩
  intro c
  by_cases hi : pyContains (pyLower c) "improdutivo" = true
  · rw [if_pos hi]
    unfold normalizeClassification
    rw [if_pos (pyContains_produtivo_of_improdutivo _ hi), if_pos hi]
  · rw [if_neg hi]
    unfold normalizeClassification
    by_cases hp : pyContains (pyLower c) "produtivo" = true
    · rw [if_pos hp, if_neg hi, if_pos hp]
    · rw [if_neg hp, if_neg hp]

/-- C6: when the structured parse of the cleaned response fails, the lexical
fallback applies to the raw response: positive term present and negative term
absent gives `Produtivo`/7/0.5, anything else gives `Improdutivo`/3/0.5. -/
theorem fallback_on_parse_failure :
    ∀ s : String,
      jsonLoads (cleanResponse s) = none →
      extract_classification_data s =
        .ok (if pyContains (pyLower s) "produtivo" = true ∧
                ¬ (pyContains (pyLower s) "improdutivo" = true) then
               { classification := "Produtivo", confidence := mkRat 1 2, pontuation := 7 }
             else
               { classification := "Improdutivo", confidence := mkRat 1 2, pontuation := 3 }) := by
  intro s h
  unfold extract_classification_data
  rw [h]
  rfl

/-- C6 witness: a non-JSON reply containing the positive term only. -/
theorem fallback_on_parse_failure_witness :
    jsonLoads (cleanResponse "resposta produtivo") = none ∧
    extract_classification_data "resposta produtivo" =
      .ok { classification := "Produtivo", confidence := mkRat 1 2, pontuation := 7 } :=
  ⟨by rfl, (fallback_on_parse_failure "resposta produtivo" (by rfl)).trans (by decide)⟩


/-! ### The completion client: `OpenAIClient` (`app/services/openai_client.py`) -/

/-- Outcome of one invocation of the remote chat-completions backend:
`success` carries the (possibly missing) reply content, the error
constructors mirror the exception classes of the OpenAI SDK
(`APIConnectionError`, `RateLimitError`, `AuthenticationError`, other
`APIError`s, and any unexpected exception). -/
inductive ApiOutcome where
  | success (content : Option String)
  | connectionError
  | rateLimitError
  | authenticationError
  | apiError
  | otherError
deriving DecidableEq, Repr

/-- Errors that `chat_completion` can propagate; `retryError` models
tenacity's `RetryError`, raised when the attempt limit is exhausted. -/
inductive CallError where
  | connectionError
  | rateLimitError
  | authenticationError
  | apiError
  | otherError
  | retryError
deriving DecidableEq, Repr

/-- The exception classes tenacity retries on, from the decorator
`retry_if_exception_type((APIConnectionError, RateLimitError))`. -/
def isTransient : CallError → Bool
  | .connectionError => true
  | .rateLimitError => true
  | _ => false

/-- Lines 88-111 of `openai_client.py`: one attempt of the decorated body.
On success, missing (`None`) or empty content yields the empty string and
any other content is returned stripped; every exception is re-raised. -/
def singleCall : ApiOutcome → Except CallError String
  | .success none => .ok ""
  | .success (some s) => .ok (if s = "" then "" else pyStrip s)
  | .connectionError => .error .connectionError
  | .rateLimitError => .error .rateLimitError
  | .authenticationError => .error .authenticationError
  | .apiError => .error .apiError
  | .otherError => .error .otherError

/-- The tenacity retry loop around the decorated body: `backend n` is the
outcome of the `n`-th backend invocation (numbering continues across calls
through `start`), and `attemptsLeft` counts the remaining attempts.  Returns
the call result together with the number of backend invocations performed. -/
def chatCompletionFrom (backend : Nat → ApiOutcome) (start : Nat) :
    Nat → Except CallError String × Nat
  | 0 => (.error .retryError, 0)
  | n + 1 =>
    match singleCall (backend start) with
    | .ok s => (.ok s, 1)
    | .error e =>
      if isTransient e then
        if n = 0 then (.error .retryError, 1)
        else
          ((chatCompletionFrom backend (start + 1) n).1,
           (chatCompletionFrom backend (start + 1) n).2 + 1)
      else (.error e, 1)

/-- One-step unfolding of the retry loop, definitional for a successor
attempt count. -/
lemma chatCompletionFrom_eq (backend : Nat → ApiOutcome) (start n : Nat) :
    chatCompletionFrom backend start (n + 1) =
      (match singleCall (backend start) with
       | .ok s => (.ok s, 1)
       | .error e =>
         if isTransient e then
           if n = 0 then (.error .retryError, 1)
           else
             ((chatCompletionFrom backend (start + 1) n).1,
              (chatCompletionFrom backend (start + 1) n).2 + 1)
         else (.error e, 1)) := rfl

/-- Configuration stored by `OpenAIClient.__init__` from `Settings`: the
credential, model identifier, per-call timeout and `OPENAI_MAX_RETRIES`. -/
structure ClientConfig where
  api_key : String
  model : String
  timeout : Nat
  max_retries : Nat
deriving DecidableEq, Repr

/-- Model of `OpenAIClient.chat_completion` (lines 58-111).  The decorator
is `@retry(stop=stop_after_attempt(3), ...)` with the literal `3`: the
stored `max_retries` configuration is not consulted anywhere in the method,
and no credential check is performed before attempting the call. -/
def chat_completion (cfg : ClientConfig) (backend : Nat → ApiOutcome) :
    Except CallError String × Nat :=
  chatCompletionFrom backend 0 3

/-- Model of `OpenAIClient.is_configured` (lines 113-120):
`bool(self.api_key)`. -/
def is_configured (cfg : ClientConfig) : Bool := cfg.api_key ≠ ""

/-- Backend that fails with two transient faults and then succeeds. -/
def transientTwiceBackend : Nat → ApiOutcome
  | 0 => .connectionError
  | 1 => .rateLimitError
  | _ => .success (some "ok")

/-! ### Claims about the completion client -/

/-- C4: the spec states the retry limit is the configured maximum attempts.
The code stores `OPENAI_MAX_RETRIES` in `self.max_retries` but the decorator
hardcodes `stop_after_attempt(3)`, so for every configured value the client
retries transient faults up to 3 attempts: with a backend failing twice
transiently and then succeeding, the success result is returned after
exactly 3 invocations even when the configured maximum is 1. -/
theorem retries_ignore_configured_max :
    ∀ k : Nat,
      chat_completion
          { api_key := "sk-test", model := "gpt-4o-mini", timeout := 30, max_retries := k }
          transientTwiceBackend =
        (.ok "ok", 3) := by
  intro k
  rfl

/-- C3 counterexample: with no credential configured, `chat_completion`
still performs a remote call attempt (one backend invocation) and does not
fail when the backend succeeds — there is no fail-fast credential check in
the client. -/
theorem unconfigured_call_attempt_counterexample :
    is_configured
        { api_key := "", model := "gpt-4o-mini", timeout := 30, max_retries := 3 } = false ∧
    chat_completion
        { api_key := "", model := "gpt-4o-mini", timeout := 30, max_retries := 3 }
        (fun _ => .success (some "ok")) =
      (.ok "ok", 1) :=
  ⟨rfl, rfl⟩

/-- C10: if the reply content is missing or empty the client returns the
empty string, and otherwise the content stripped of surrounding whitespace,
with a single backend invocation. -/
theorem chat_completion_content_handling :
    ∀ (cfg : ClientConfig) (backend : Nat → ApiOutcome) (s : String),
      (backend 0 = .success none → chat_completion cfg backend = (.ok "", 1)) ∧
      (backend 0 = .success (some "") → chat_completion cfg backend = (.ok "", 1)) ∧
      (backend 0 = .success (some s) → ¬ s = "" →
        chat_completion cfg backend = (.ok (pyStrip s), 1)) := by
  intro cfg backend s
  refine ⟨?_, ?_, ?_⟩
  · intro h
    unfold chat_completion
    rw [chatCompletionFrom_eq, h]
    rfl
  · intro h
    unfold chat_completion
    rw [chatCompletionFrom_eq, h]
    rfl
  · intro h hs
    unfold chat_completion
    rw [chatCompletionFrom_eq, h]
    simp [singleCall, hs]

/-- C10 witness: whitespace-padded content is stripped after one invocation. -/
theorem chat_completion_content_handling_witness :
    chat_completion
        { api_key := "sk-test", model := "gpt-4o-mini", timeout := 30, max_retries := 3 }
        (fun _ => .success (some " ola ")) =
      (.ok "ola", 1) := by
  have h :=
    (chat_completion_content_handling
        { api_key := "sk-test", model := "gpt-4o-mini", timeout := 30, max_retries := 3 }
        (fun _ => .success (some " ola ")) " ola ").2.2 rfl (by decide)
  exact h.trans (by decide)

/-! ### The classification endpoint and its TTL result cache
(`app/api/routes.py`) -/

/-- Response schema `EmailClassifyResponse` (`app/models.py`). -/
structure EmailClassifyResponse where
  classification : String
  pontuation : Int
  suggested_reply : String
  confidence : Rat
deriving DecidableEq, Repr

/-- History entry `EmailHistoryItem` (`app/models.py`); `created_at` is an
abstract timestamp. -/
structure EmailHistoryItem where
  id : String
  email_content : String
  classification : String
  pontuation : Int
  suggested_reply : String
  confidence : Rat
  created_at : Nat
deriving DecidableEq, Repr

/-- One entry of the `TTLCache`: key, stored response, insertion time. -/
structure CacheEntry where
  key : String
  value : EmailClassifyResponse
  insertedAt : Nat
deriving DecidableEq, Repr

/-- Shared module state of `routes.py`: the `result_cache` and the
`email_history` list. -/
structure AppState where
  cache : List CacheEntry
  history : List EmailHistoryItem
deriving DecidableEq, Repr

/-- Model of `get_cache_key` (lines 47-49): `str(hash(email_content))`, where
`pyHash` is the process-fixed Python string hash. -/
def get_cache_key (pyHash : String → Int) (s : String) : String := toString (pyHash s)

/-- Lookup in the `TTLCache`: an entry whose age has reached the TTL is
treated as absent. -/
def cacheLookup (entries : List CacheEntry) (ttl : Nat) (k : String) (now : Nat) :
    Option EmailClassifyResponse :=
  match entries.find? (fun e => e.key == k) with
  | some e => if now < e.insertedAt + ttl then some e.value else none
  | none => none

/-- Entries surviving a `TTLCache` insertion for key `k` at time `now`:
expired entries and a previous entry for the same key are dropped. -/
def prunedEntries (entries : List CacheEntry) (ttl : Nat) (k : String) (now : Nat) :
    List CacheEntry :=
  (entries.filter (fun e => decide (now < e.insertedAt + ttl))).filter (fun e => !(e.key == k))

/-- Eviction of the oldest entries until the new entry fits. -/
def roomEntries (l : List CacheEntry) (maxsize : Nat) : List CacheEntry :=
  if maxsize ≤ l.length then l.drop (l.length + 1 - maxsize) else l

/-- Insertion into the `TTLCache` (`result_cache[cache_key] = response`). -/
def cacheInsert (entries : List CacheEntry) (ttl maxsize : Nat) (k : String)
    (v : EmailClassifyResponse) (now : Nat) : List CacheEntry :=
  roomEntries (prunedEntries entries ttl k now) maxsize ++
    [{ key := k, value := v, insertedAt := now }]

/-- HTTP failures the endpoint raises: 503 when the client is not
configured, 500 for any processing failure. -/
inductive HttpFailure where
  | serviceUnavailable
  | internalError
deriving DecidableEq, Repr

/-- Model of `classify_email_endpoint` (lines 66-144): check configuration,
consult the cache, classify (`classify_email`, one retried chat-completion
call plus `extract_classification_data`), generate the suggested reply
(`generate_response`, a second retried chat-completion call, stripped), then
populate cache and history.  Every exception maps to a 500 and leaves the
state unchanged.  Returns the HTTP result, the updated module state and the
total number of backend invocations performed. -/
def classify_email_endpoint (pyHash : String → Int) (cfg : ClientConfig)
    (ttl maxsize : Nat) (st : AppState) (backend : Nat → ApiOutcome)
    (text : String) (now : Nat) (newId : String) :
    Except HttpFailure EmailClassifyResponse × AppState × Nat :=
  if is_configured cfg = false then (.error .serviceUnavailable, st, 0)
  else
    match cacheLookup st.cache ttl (get_cache_key pyHash text) now with
    | some resp => (.ok resp, st, 0)
    | none =>
      match chat_completion cfg backend with
      | (.error _, k1) => (.error .internalError, st, k1)
      | (.ok modelText, k1) =>
        match extract_classification_data modelText with
        | .error _ => (.error .internalError, st, k1)
        | .ok cls =>
          match chatCompletionFrom backend k1 3 with
          | (.error _, k2) => (.error .internalError, st, k1 + k2)
          | (.ok reply, k2) =>
            (.ok { classification := cls.classification, pontuation := cls.pontuation,
                   suggested_reply := pyStrip reply, confidence := cls.confidence },
             { cache := cacheInsert st.cache ttl maxsize (get_cache_key pyHash text)
                 { classification := cls.classification, pontuation := cls.pontuation,
                   suggested_reply := pyStrip reply, confidence := cls.confidence } now,
               history := st.history ++
                 [{ id := newId, email_content := String.mk (text.data.take 500),
                    classification := cls.classification, pontuation := cls.pontuation,
                    suggested_reply := pyStrip reply, confidence := cls.confidence,
                    created_at := now }] },
             k1 + k2)

/-! ### Helper lemmas about the cache and the endpoint -/

/-- A just-inserted cache entry is found unexpired as long as its age is
below the TTL. -/
lemma cacheLookup_insert_self (entries : List CacheEntry) (ttl maxsize : Nat) (k : String)
    (v : EmailClassifyResponse) (now1 now2 : Nat) (hfresh : now2 < now1 + ttl) :
    cacheLookup (cacheInsert entries ttl maxsize k v now1) ttl k now2 = some v := by
  have hroom : ∀ e ∈ roomEntries (prunedEntries entries ttl k now1) maxsize,
      (e.key == k) = false := by
    intro e he
    have he2 : e ∈ prunedEntries entries ttl k now1 := by
      unfold roomEntries at he
      split at he
      · exact List.drop_subset _ _ he
      · exact he
    have h3 := (List.mem_filter.1 he2).2
    simpa using h3
  unfold cacheInsert cacheLookup
  rw [List.find?_append]
  rw [List.find?_eq_none.2 (fun e he => by simp [hroom e he])]
  rw [List.find?_cons_of_pos _ (by simp)]
  simp [hfresh]

/-- Whenever the endpoint returns a failure, the module state is unchanged. -/
lemma endpoint_error_state (pyHash : String → Int) (cfg : ClientConfig)
    (ttl maxsize : Nat) (st : AppState) (backend : Nat → ApiOutcome)
    (text : String) (now : Nat) (newId : String)
    (res : Except HttpFailure EmailClassifyResponse) (st2 : AppState) (k : Nat)
    (h : classify_email_endpoint pyHash cfg ttl maxsize st backend text now newId =
      (res, st2, k))
    (e : HttpFailure) (hres : res = .error e) : st2 = st := by
  unfold classify_email_endpoint at h
  by_cases hc : is_configured cfg = false
  · rw [if_pos hc] at h
    simp only [Prod.mk.injEq] at h
    exact h.2.1.symm
  · rw [if_neg hc] at h
    cases hl : cacheLookup st.cache ttl (get_cache_key pyHash text) now with
    | some r0 =>
      rw [hl] at h
      dsimp only at h
      simp only [Prod.mk.injEq] at h
      exact h.2.1.symm
    | none =>
      rw [hl] at h
      dsimp only at h
      cases hp : chat_completion cfg backend with
      | mk r1 k1 =>
        rw [hp] at h
        cases r1 with
        | error ce =>
          dsimp only at h
          simp only [Prod.mk.injEq] at h
          exact h.2.1.symm
        | ok mt =>
          dsimp only at h
          cases hx : extract_classification_data mt with
          | error pe =>
            rw [hx] at h
            dsimp only at h
            simp only [Prod.mk.injEq] at h
            exact h.2.1.symm
          | ok cls =>
            rw [hx] at h
            dsimp only at h
            cases hr : chatCompletionFrom backend k1 3 with
            | mk r2 k2 =>
              rw [hr] at h
              cases r2 with
              | error ce =>
                dsimp only at h
                simp only [Prod.mk.injEq] at h
                exact h.2.1.symm
              | ok reply =>
                dsimp only at h
                simp only [Prod.mk.injEq] at h
                rw [hres] at h
                exact absurd h.1 (by simp)

/-! ### Claims about the endpoint and the cache -/

/-- C3, amended: `is_configured()` is true exactly for a non-empty
credential, and the fail-fast short-circuit lives in the HTTP endpoint,
which returns the service-unavailable failure with zero backend invocations
when the client is not configured; `chat_completion` itself performs the
call attempt regardless (see the counterexample). -/
theorem is_configured_iff_and_endpoint_short_circuit :
    (∀ cfg : ClientConfig, is_configured cfg = true ↔ cfg.api_key ≠ "") ∧
    (∀ (pyHash : String → Int) (cfg : ClientConfig) (ttl maxsize : Nat) (st : AppState)
        (backend : Nat → ApiOutcome) (text : String) (now : Nat) (newId : String),
        is_configured cfg = false →
        classify_email_endpoint pyHash cfg ttl maxsize st backend text now newId =
          (.error .serviceUnavailable, st, 0)) := by
  constructor
  · intro cfg
    simp [is_configured]
  · intro pyHash cfg ttl maxsize st backend text now newId h
    unfold classify_email_endpoint
    rw [if_pos h]

/-- C3 witness: the empty credential is reported unconfigured and the
endpoint short-circuits with 503 and no backend invocation. -/
theorem is_configured_iff_and_endpoint_short_circuit_witness :
    is_configured
        { api_key := "", model := "gpt-4o-mini", timeout := 30, max_retries := 3 } = false ∧
    classify_email_endpoint (fun _ => 0)
        { api_key := "", model := "gpt-4o-mini", timeout := 30, max_retries := 3 }
        3600 1000 { cache := [], history := [] } (fun _ => .success (some "ok")) "Oi" 0 "id-1" =
      (.error .serviceUnavailable, { cache := [], history := [] }, 0) :=
  ⟨by decide,
   is_configured_iff_and_endpoint_short_circuit.2 (fun _ => 0)
     { api_key := "", model := "gpt-4o-mini", timeout := 30, max_retries := 3 }
     3600 1000 { cache := [], history := [] } (fun _ => .success (some "ok")) "Oi" 0 "id-1"
     (by decide)⟩

/-- C7: after a successful computing run, a second call with the identical
raw text and an unexpired entry returns the identical response with zero
backend invocations and an unchanged state; the fingerprint is the same
deterministic function of the exact raw text in both runs. -/
theorem classify_cache_hit :
    ∀ (pyHash : String → Int) (cfg : ClientConfig) (ttl maxsize : Nat) (st : AppState)
      (backend backend2 : Nat → ApiOutcome) (text : String) (now1 now2 : Nat)
      (id1 id2 : String) (resp : EmailClassifyResponse) (st1 : AppState) (k : Nat),
      cacheLookup st.cache ttl (get_cache_key pyHash text) now1 = none →
      classify_email_endpoint pyHash cfg ttl maxsize st backend text now1 id1 =
        (.ok resp, st1, k) →
      now2 < now1 + ttl →
      classify_email_endpoint pyHash cfg ttl maxsize st1 backend2 text now2 id2 =
        (.ok resp, st1, 0) := by
  intro pyHash cfg ttl maxsize st backend backend2 text now1 now2 id1 id2 resp st1 k
  intro hmiss h1 hfresh
  unfold classify_email_endpoint at h1
  by_cases hc : is_configured cfg = false
  · rw [if_pos hc] at h1
    simp only [Prod.mk.injEq] at h1
    exact absurd h1.1 (by simp)
  · rw [if_neg hc, hmiss] at h1
    dsimp only at h1
    cases hp : chat_completion cfg backend with
    | mk r1 k1 =>
      rw [hp] at h1
      cases r1 with
      | error ce =>
        dsimp only at h1
        simp only [Prod.mk.injEq] at h1
        exact absurd h1.1 (by simp)
      | ok mt =>
        dsimp only at h1
        cases hx : extract_classification_data mt with
        | error pe =>
          rw [hx] at h1
          dsimp only at h1
          simp only [Prod.mk.injEq] at h1
          exact absurd h1.1 (by simp)
        | ok cls =>
          rw [hx] at h1
          dsimp only at h1
          cases hr : chatCompletionFrom backend k1 3 with
          | mk r2 k2 =>
            rw [hr] at h1
            cases r2 with
            | error ce =>
              dsimp only at h1
              simp only [Prod.mk.injEq] at h1
              exact absurd h1.1 (by simp)
            | ok reply =>
              dsimp only at h1
              simp only [Prod.mk.injEq, Except.ok.injEq] at h1
              obtain ⟨hresp, hst, -⟩ := h1
              subst hresp
              subst hst
              unfold classify_email_endpoint
              rw [if_neg hc]
              rw [show (AppState.cache
                    { cache := cacheInsert st.cache ttl maxsize (get_cache_key pyHash text)
                        { classification := cls.classification, pontuation := cls.pontuation,
                          suggested_reply := pyStrip reply, confidence := cls.confidence } now1,
                      history := st.history ++
                        [{ id := id1, email_content := String.mk (text.data.take 500),
                           classification := cls.classification, pontuation := cls.pontuation,
                           suggested_reply := pyStrip reply, confidence := cls.confidence,
                           created_at := now1 }] }) =
                  cacheInsert st.cache ttl maxsize (get_cache_key pyHash text)
                    { classification := cls.classification, pontuation := cls.pontuation,
                      suggested_reply := pyStrip reply, confidence := cls.confidence } now1
                from rfl]
              rw [cacheLookup_insert_self _ _ _ _ _ _ _ hfresh]

/-- C8: every endpoint failure leaves the module state (in particular the
result cache) unchanged; a failing classification call and a failing
reply-generation call each surface as the internal-error processing
failure. -/
theorem endpoint_failure_propagation :
    (∀ (pyHash : String → Int) (cfg : ClientConfig) (ttl maxsize : Nat) (st : AppState)
        (backend : Nat → ApiOutcome) (text : String) (now : Nat) (newId : String)
        (res : Except HttpFailure EmailClassifyResponse) (st2 : AppState) (k : Nat)
        (e : HttpFailure),
        classify_email_endpoint pyHash cfg ttl maxsize st backend text now newId =
          (res, st2, k) →
        res = .error e → st2 = st) ∧
    (∀ (pyHash : String → Int) (cfg : ClientConfig) (ttl maxsize : Nat) (st : AppState)
        (backend : Nat → ApiOutcome) (text : String) (now : Nat) (newId : String)
        (ce : CallError),
        is_configured cfg = true →
        cacheLookup st.cache ttl (get_cache_key pyHash text) now = none →
        (chat_completion cfg backend).1 = .error ce →
        classify_email_endpoint pyHash cfg ttl maxsize st backend text now newId =
          (.error .internalError, st, (chat_completion cfg backend).2)) ∧
    (∀ (pyHash : String → Int) (cfg : ClientConfig) (ttl maxsize : Nat) (st : AppState)
        (backend : Nat → ApiOutcome) (text : String) (now : Nat) (newId : String)
        (mt : String) (k1 : Nat) (cls : ClassificationData) (ce : CallError),
        is_configured cfg = true →
        cacheLookup st.cache ttl (get_cache_key pyHash text) now = none →
        chat_completion cfg backend = (.ok mt, k1) →
        extract_classification_data mt = .ok cls →
        (chatCompletionFrom backend k1 3).1 = .error ce →
        classify_email_endpoint pyHash cfg ttl maxsize st backend text now newId =
          (.error .internalError, st, k1 + (chatCompletionFrom backend k1 3).2)) := by
  refine ⟨?_, ?_, ?_⟩
  · intro pyHash cfg ttl maxsize st backend text now newId res st2 k e h hres
    exact endpoint_error_state pyHash cfg ttl maxsize st backend text now newId res st2 k h e hres
  · intro pyHash cfg ttl maxsize st backend text now newId ce hconf hmiss hcall
    unfold classify_email_endpoint
    rw [if_neg (by simp [hconf]), hmiss]
    dsimp only
    cases hp : chat_completion cfg backend with
    | mk r1 k1 =>
      rw [hp] at hcall
      dsimp only at hcall
      rw [hcall]
  · intro pyHash cfg ttl maxsize st backend text now newId mt k1 cls ce hconf hmiss hcall hx hr
    unfold classify_email_endpoint
    rw [if_neg (by simp [hconf]), hmiss]
    dsimp only
    rw [hcall]
    dsimp only
    rw [hx]
    dsimp only
    cases hq : chatCompletionFrom backend k1 3 with
    | mk r2 k2 =>
      rw [hq] at hr
      dsimp only at hr
      rw [hr]

/-- C7 witness: a concrete computing run followed by a cache hit with zero
further invocations and an identical response. -/
theorem classify_cache_hit_witness :
    classify_email_endpoint (fun _ => 0)
        { api_key := "sk-test", model := "gpt-4o-mini", timeout := 30, max_retries := 3 }
        3600 1000
        { cache := [{ key := "0",
                      value := { classification := "Improdutivo", pontuation := 3,
                                 suggested_reply := "Obrigado pelo contato.",
                                 confidence := mkRat 1 2 },
                      insertedAt := 0 }],
          history := [{ id := "id-1", email_content := "Oi",
                        classification := "Improdutivo", pontuation := 3,
                        suggested_reply := "Obrigado pelo contato.",
                        confidence := mkRat 1 2, created_at := 0 }] }
        (fun _ => .success (some "Obrigado pelo contato.")) "Oi" 10 "id-2" =
      (.ok { classification := "Improdutivo", pontuation := 3,
             suggested_reply := "Obrigado pelo contato.", confidence := mkRat 1 2 },
       { cache := [{ key := "0",
                     value := { classification := "Improdutivo", pontuation := 3,
                                suggested_reply := "Obrigado pelo contato.",
                                confidence := mkRat 1 2 },
                     insertedAt := 0 }],
         history := [{ id := "id-1", email_content := "Oi",
                       classification := "Improdutivo", pontuation := 3,
                       suggested_reply := "Obrigado pelo contato.",
                       confidence := mkRat 1 2, created_at := 0 }] },
       0) :=
  classify_cache_hit (fun _ => 0)
    { api_key := "sk-test", model := "gpt-4o-mini", timeout := 30, max_retries := 3 }
    3600 1000 { cache := [], history := [] }
    (fun _ => .success (some "Obrigado pelo contato."))
    (fun _ => .success (some "Obrigado pelo contato.")) "Oi" 0 10 "id-1" "id-2"
    { classification := "Improdutivo", pontuation := 3,
      suggested_reply := "Obrigado pelo contato.", confidence := mkRat 1 2 }
    { cache := [{ key := "0",
                  value := { classification := "Improdutivo", pontuation := 3,
                             suggested_reply := "Obrigado pelo contato.",
                             confidence := mkRat 1 2 },
                  insertedAt := 0 }],
      history := [{ id := "id-1", email_content := "Oi",
                    classification := "Improdutivo", pontuation := 3,
                    suggested_reply := "Obrigado pelo contato.",
                    confidence := mkRat 1 2, created_at := 0 }] }
    2 (by decide) (by decide) (by decide)

/-- C8 witness: a backend that always fails with a connectivity fault makes
the endpoint fail with the internal-error processing failure after the three
attempts of the retried classification call, leaving the state unchanged. -/
theorem endpoint_failure_propagation_witness :
    classify_email_endpoint (fun _ => 0)
        { api_key := "sk-test", model := "gpt-4o-mini", timeout := 30, max_retries := 3 }
        3600 1000 { cache := [], history := [] } (fun _ => .connectionError) "Oi" 0 "id-1" =
      (.error .internalError, { cache := [], history := [] }, 3) ∧
    ({ cache := [], history := [] } : AppState) = { cache := [], history := [] } :=
  ⟨(endpoint_failure_propagation.2.1 (fun _ => 0)
      { api_key := "sk-test", model := "gpt-4o-mini", timeout := 30, max_retries := 3 }
      3600 1000 { cache := [], history := [] } (fun _ => .connectionError) "Oi" 0 "id-1"
      CallError.retryError (by decide) (by decide) (by decide)).trans (by decide),
   endpoint_failure_propagation.1 (fun _ => 0)
     { api_key := "sk-test", model := "gpt-4o-mini", timeout := 30, max_retries := 3 }
     3600 1000 { cache := [], history := [] } (fun _ => .connectionError) "Oi" 0 "id-1"
     (.error .internalError) { cache := [], history := [] } 3 HttpFailure.internalError
     (by decide) rfl⟩

/-! ### The text normalizer: `preprocess_text` (`app/nlp/preprocess.py`)

The embedding models the deterministic branch of the module, with
`SPACY_AVAILABLE = False` (no linguistic model resource): lowercasing,
URL/email removal, punctuation replacement, whitespace collapsing and the
static stopword filter. -/

/-- Python `string.punctuation`. -/
def pyPunct : List Char := "!\"#$%&\x27()*+,-./:;<=>?@[\\]^_\x60\x7b|\x7d~".data

/-- Model of `remove_punctuation` (lines 54-66): every punctuation character is
replaced by a space via `str.translate`. -/
def removePunct (l : List Char) : List Char :=
  l.map (fun c => if c ∈ pyPunct then ' ' else c)

/-- Model of `re.sub(r'http\S+|www\S+|https\S+', '', processed)`: a leftmost
occurrence of `http` or `www` followed by a non-empty greedy run of
non-whitespace characters is removed, scanning without overlap (the
`https\S+` alternative is subsumed by `http\S+`). -/
def removeUrls : Nat → List Char → List Char
  | 0, l => l
  | _, [] => []
  | fuel + 1, c :: t =>
    if "http".data.isPrefixOf (c :: t) ∧ ((c :: t).drop 4).takeWhile nonWs ≠ [] then
      removeUrls fuel (((c :: t).drop 4).dropWhile nonWs)
    else if "www".data.isPrefixOf (c :: t) ∧ ((c :: t).drop 3).takeWhile nonWs ≠ [] then
      removeUrls fuel (((c :: t).drop 3).dropWhile nonWs)
    else c :: removeUrls fuel t

/-- Helper for the email pattern: the list has an `@` at a non-final
position. -/
def hasAtNotLast : List Char → Bool
  | [] => false
  | [_] => false
  | c :: d :: t => (c = '@') || hasAtNotLast (d :: t)

/-- A maximal non-whitespace run matches `\S+@\S+` exactly when it has an
`@` with at least one character on each side within the run; the greedy
match then spans the whole run. -/
def emailRunMatches (run : List Char) : Bool :=
  match run with
  | [] => false
  | _ :: t => hasAtNotLast t

/-- Model of `re.sub(r'\S+@\S+', '', processed)`: each maximal
non-whitespace run containing an inner `@` is removed whole. -/
def removeEmails : Nat → List Char → List Char
  | 0, l => l
  | _, [] => []
  | fuel + 1, c :: t =>
    if pyIsSpace c then c :: removeEmails fuel t
    else if emailRunMatches ((c :: t).takeWhile nonWs) then
      removeEmails fuel ((c :: t).dropWhile nonWs)
    else (c :: t).takeWhile nonWs ++ removeEmails fuel ((c :: t).dropWhile nonWs)

/-- The maximal non-whitespace runs of a character list (Python
`str.split()` with no separator). -/
def wordsOf : Nat → List Char → List (List Char)
  | 0, _ => []
  | _, [] => []
  | fuel + 1, c :: t =>
    if pyIsSpace c then wordsOf fuel t
    else (c :: t).takeWhile nonWs :: wordsOf fuel ((c :: t).dropWhile nonWs)

/-- Python `' '.join(words)`. -/
def joinWords : List (List Char) → List Char
  | [] => []
  | [w] => w
  | w :: x :: t => w ++ ' ' :: joinWords (x :: t)

/-- The static Portuguese stopword set of `preprocess.py` (lines 38-51). -/
def PORTUGUESE_STOPWORDS : List String :=
  ["a", "ao", "aos", "aquela", "aquelas", "aquele", "aqueles", "aquilo",
   "as", "até", "com", "como", "da", "das", "de", "dela", "delas", "dele",
   "deles", "depois", "do", "dos", "e", "ela", "elas", "ele", "eles", "em",
   "entre", "era", "eram", "essa", "essas", "esse", "esses", "esta", "estas",
   "este", "estes", "eu", "foi", "foram", "há", "isso", "isto", "já", "lhe",
   "lhes", "lo", "mas", "me", "mesmo", "meu", "meus", "minha", "minhas",
   "muito", "na", "nas", "não", "nem", "no", "nos", "nossa", "nossas",
   "nosso", "nossos", "num", "numa", "o", "os", "ou", "para", "pela",
   "pelas", "pelo", "pelos", "por", "qual", "quando", "que", "quem", "se",
   "seja", "sem", "seu", "seus", "só", "sua", "suas", "também", "te", "tem",
   "temos", "tenho", "ter", "teu", "teus", "tu", "tua", "tuas", "um", "uma",
   "você", "vocês", "vos", "à", "às", "é"]

/-- Model of `preprocess_text` (lines 126-180), `SPACY_AVAILABLE = False`
branch: empty-after-strip input short-circuits to the empty string;
otherwise lowercase, remove URLs then emails, replace punctuation by
spaces, collapse whitespace, drop stopword tokens, and collapse again. -/
def preprocess_text (text : String) : String :=
  if pyStrip text = "" then ""
  else
    let p1 := lowerChars text.data
    let p2 := removeUrls (p1.length + 1) p1
    let p3 := removeEmails (p2.length + 1) p2
    let p4 := removePunct p3
    let p5 := joinWords (wordsOf (p4.length + 1) p4)
    let toks := wordsOf (p5.length + 1) p5
    let kept := toks.filter (fun w => !(PORTUGUESE_STOPWORDS.contains (String.mk (lowerChars w))))
    let p6 := joinWords kept
    String.mk (joinWords (wordsOf (p6.length + 1) p6))

/-! ### Helper lemmas for the normalizer -/

lemma at_not_mem_removePunct (l : List Char) : '@' ∉ removePunct l := by
  intro hmem
  unfold removePunct at hmem
  rw [List.mem_map] at hmem
  obtain ⟨a, -, ha⟩ := hmem
  by_cases hp : a ∈ pyPunct
  · rw [if_pos hp] at ha
    exact absurd ha (by decide)
  · rw [if_neg hp] at ha
    exact hp (by rw [ha]; decide)

lemma mem_of_mem_takeWhile (p : Char → Bool) (l : List Char) (c : Char)
    (h : c ∈ l.takeWhile p) : c ∈ l := by
  induction l with
  | nil => simp [List.takeWhile] at h
  | cons a t ih =>
    rw [List.takeWhile_cons] at h
    by_cases hp : p a = true
    · rw [if_pos hp] at h
      rcases List.mem_cons.1 h with h | h
      · exact h ▸ List.mem_cons_self a t
      · exact List.mem_cons_of_mem a (ih h)
    · rw [if_neg hp] at h
      simp at h

lemma mem_of_mem_dropWhile (p : Char → Bool) (l : List Char) (c : Char)
    (h : c ∈ l.dropWhile p) : c ∈ l := by
  induction l with
  | nil => simp [List.dropWhile] at h
  | cons a t ih =>
    rw [List.dropWhile_cons] at h
    by_cases hp : p a = true
    · rw [if_pos hp] at h
      exact List.mem_cons_of_mem a (ih h)
    · rw [if_neg hp] at h
      exact h

/-- Every character of every whitespace-split word comes from the input. -/
lemma mem_wordsOf_subset (w : List Char) (c : Char) (hc : c ∈ w) :
    ∀ (fuel : Nat) (l : List Char), w ∈ wordsOf fuel l → c ∈ l := by
  intro fuel
  induction fuel with
  | zero => intro l hw; simp [wordsOf] at hw
  | succ n ih =>
    intro l hw
    cases l with
    | nil => simp [wordsOf] at hw
    | cons a t =>
      rw [wordsOf] at hw
      by_cases hs : pyIsSpace a = true
      · rw [if_pos hs] at hw
        exact List.mem_cons_of_mem a (ih t hw)
      · rw [if_neg hs] at hw
        rcases List.mem_cons.1 hw with h | h
        · exact mem_of_mem_takeWhile nonWs (a :: t) c (h ▸ hc)
        · exact mem_of_mem_dropWhile nonWs (a :: t) c (ih _ h)

/-- Every character of a space-joined word list is a space or comes from one
of the words. -/
lemma mem_joinWords (ws : List (List Char)) (c : Char) (h : c ∈ joinWords ws) :
    c = ' ' ∨ ∃ w ∈ ws, c ∈ w := by
  induction ws with
  | nil => simp [joinWords] at h
  | cons w rest ih =>
    cases rest with
    | nil =>
      right
      exact ⟨w, by simp, by simpa [joinWords] using h⟩
    | cons x t =>
      rw [joinWords] at h
      rcases List.mem_append.1 h with h | h
      · right
        exact ⟨w, by simp, h⟩
      · rcases List.mem_cons.1 h with h | h
        · left; exact h
        · rcases ih h with h1 | ⟨w2, hw2, hc2⟩
          · left; exact h1
          · right
            exact ⟨w2, List.mem_cons_of_mem _ hw2, hc2⟩

/-- The normalized output never contains an `@` character: every `@` is
punctuation and is replaced by a space before the final collapses. -/
lemma at_not_mem_preprocess (text : String) : '@' ∉ (preprocess_text text).data := by
  intro hmem
  unfold preprocess_text at hmem
  by_cases h0 : pyStrip text = ""
  · rw [if_pos h0] at hmem
    simp at hmem
  · rw [if_neg h0] at hmem
    dsimp only at hmem
    rcases mem_joinWords _ _ hmem with h | ⟨w, hw, hc⟩
    · exact absurd h (by decide)
    · have h6 := mem_wordsOf_subset w '@' hc _ _ hw
      rcases mem_joinWords _ _ h6 with h | ⟨w2, hw2, hc2⟩
      · exact absurd h (by decide)
      · have hw2m := (List.mem_filter.1 hw2).1
        have h5 := mem_wordsOf_subset w2 '@' hc2 _ _ hw2m
        rcases mem_joinWords _ _ h5 with h | ⟨w3, hw3, hc3⟩
        · exact absurd h (by decide)
        · have h4 := mem_wordsOf_subset w3 '@' hc3 _ _ hw3
          exact at_not_mem_removePunct _ h4

/-- C9: the normalizer applies, in order, lowercasing, URL and email
removal, punctuation-to-space replacement and whitespace collapsing (the
definition of `preprocess_text` is exactly this composition, followed by the
static stopword filter); the output never contains an `@` character, and on
the spec's example it contains neither `https` nor `@`. -/
theorem preprocess_pipeline :
    (∀ text : String, '@' ∉ (preprocess_text text).data) ∧
    preprocess_text "Visit https://x.com or a@b.com!!" = "visit or" ∧
    pyContains (preprocess_text "Visit https://x.com or a@b.com!!") "https" = false ∧
    pyContains (preprocess_text "Visit https://x.com or a@b.com!!") "@" = false := by
  refine ⟨at_not_mem_preprocess, by decide, by decide, by decide⟩

end EmailClassify
